import Mathlib

/-!
Shallow embedding of `src/amap_navigation.py` (class `AmapNavigation`).

The program is a thin HTTP client: `geocode` turns an address into a
coordinate string, `get_walking_navigation` fetches a walking route, and
`display_walking_navigation` renders the route as console text.  The network
is modelled as an argument: each fetch operation receives the outcome of
`requests.get(...).json()` as an `Except String JVal` value, where `.error e`
stands for a transport failure or a JSON-parse failure (any exception raised
by the two calls inside the `try` block) and `.ok v` stands for the parsed
JSON body.  Python values parsed from JSON are modelled by `JVal`; JSON
numbers are modelled as integers (the mapping API delivers all numeric fields
as strings, which is what every claim exercises).  Console output is modelled
as a list of strings, one element per `print` call.  An exception that
escapes a function (only possible in `display_walking_navigation`, which has
no `try`) is modelled by the `exn` field of `DispOut`.
-/

/-- A Python value parsed from JSON: `None`, `bool`, numbers (modelled as
integers), `str`, `list`, `dict` (association list of string keys, keys
unique as produced by `json.loads`). -/
inductive JVal where
  | null
  | bool (b : Bool)
  | num (n : Int)
  | str (s : String)
  | arr (elems : List JVal)
  | obj (fields : List (String × JVal))

/-- A single-quote character, used by the Python `repr` of strings. -/
def pyQuote : String := String.singleton (Char.ofNat 39)

/-- First-match association-list lookup, modelling Python dict access on the
(unique-keyed) dicts produced by `json.loads`. -/
def lookupField : List (String × JVal) → String → Option JVal
  | [], _ => none
  | (k, v) :: rest, key => if k == key then some v else lookupField rest key

mutual
/-- Python `repr` of a JSON-derived value (the shape printed by
`print(f"错误信息: {result}")`); quoting is modelled, fine points of
Python string escaping are not exercised by any claim. -/
def pyRepr : JVal → String
  | .null => "None"
  | .bool true => "True"
  | .bool false => "False"
  | .num n => toString n
  | .str s => pyQuote ++ s ++ pyQuote
  | .arr l => "[" ++ pyReprList l ++ "]"
  | .obj fs => "\x7b" ++ pyReprFields fs ++ "\x7d"

/-- Comma-separated `repr` of list elements. -/
def pyReprList : List JVal → String
  | [] => ""
  | [v] => pyRepr v
  | v :: rest => pyRepr v ++ ", " ++ pyReprList rest

/-- Comma-separated `repr` of dict entries. -/
def pyReprFields : List (String × JVal) → String
  | [] => ""
  | [(k, v)] => pyQuote ++ k ++ pyQuote ++ ": " ++ pyRepr v
  | (k, v) :: rest => pyQuote ++ k ++ pyQuote ++ ": " ++ pyRepr v ++ ", " ++ pyReprFields rest
end

/-- Python `str()` as used by f-string interpolation: a string interpolates
to itself, every other value to its `repr`-like form. -/
def pyStr : JVal → String
  | .str s => s
  | v => pyRepr v

/-- Python truthiness (`bool(v)`) of a JSON-derived value: `None`, `False`,
`0`, `""`, `[]` and `{}` are falsy. -/
def pyTruthy : JVal → Bool
  | .null => false
  | .bool b => b
  | .num n => n != 0
  | .str s => !s.isEmpty
  | .arr l => !l.isEmpty
  | .obj fs => !fs.isEmpty

/-- Python `v == s` against a string literal: true exactly when `v` is that
string (no numeric coercion: `1 == "1"` is `False` in Python). -/
def pyEqStr (v : JVal) (s : String) : Bool :=
  match v with
  | .str t => t == s
  | _ => false

/-- Python subscript `v[key]` with a string key: dict lookup (`KeyError`
when absent), `TypeError` on every non-dict. -/
def pyGetItem (v : JVal) (key : String) : Except String JVal :=
  match v with
  | .obj fs =>
    match lookupField fs key with
    | some x => Except.ok x
    | none => Except.error ("KeyError: " ++ pyQuote ++ key ++ pyQuote)
  | _ => Except.error "TypeError: value is not subscriptable with a string key"

/-- Python subscript `v[0]`: first list element (`IndexError` on `[]`),
first character of a string, `KeyError` on a string-keyed dict, `TypeError`
otherwise. -/
def pyIndex0 (v : JVal) : Except String JVal :=
  match v with
  | .arr (x :: _) => Except.ok x
  | .arr [] => Except.error "IndexError: list index out of range"
  | .str s =>
    match s.data with
    | c :: _ => Except.ok (.str (String.singleton c))
    | [] => Except.error "IndexError: string index out of range"
  | .obj _ => Except.error "KeyError: 0"
  | _ => Except.error "TypeError: value is not subscriptable"

/-- Whether `needle` occurs at the start of `hay`. -/
def charsLead : List Char → List Char → Bool
  | _, [] => true
  | [], _ :: _ => false
  | c :: cs, d :: ds => c == d && charsLead cs ds

/-- Whether `needle` occurs anywhere inside `hay`. -/
def charsContain : List Char → List Char → Bool
  | [], needle => needle.isEmpty
  | c :: t, needle => charsLead (c :: t) needle || charsContain t needle

/-- Substring test, modelling Python `needle in haystack` on strings. -/
def strContainsSub (hay needle : String) : Bool :=
  charsContain hay.data needle.data

/-- Python `key in v`: key test on dicts, membership on lists, substring on
strings, `TypeError` on non-containers. -/
def pyContains (v : JVal) (key : String) : Except String Bool :=
  match v with
  | .obj fs => Except.ok (lookupField fs key).isSome
  | .arr l => Except.ok (l.any fun x => pyEqStr x key)
  | .str s => Except.ok (strContainsSub s key)
  | _ => Except.error "TypeError: argument is not iterable"

/-- Python `v.get(key, dflt)`: total on dicts, `AttributeError` on every
non-dict value. -/
def pyDictGet (v : JVal) (key : String) (dflt : JVal) : Except String JVal :=
  match v with
  | .obj fs => Except.ok ((lookupField fs key).getD dflt)
  | _ => Except.error "AttributeError: value has no method get"

/-- Python iteration order of a value: list elements, string characters,
dict keys; `TypeError` on non-iterables. -/
def pyIterate (v : JVal) : Except String (List JVal) :=
  match v with
  | .arr l => Except.ok l
  | .str s => Except.ok (s.data.map fun c => JVal.str (String.singleton c))
  | .obj fs => Except.ok (fs.map fun kv => JVal.str kv.1)
  | _ => Except.error "TypeError: value is not iterable"

/-- Base-10 integer literal parse: optional surrounding whitespace, optional
sign, one or more ASCII digits — the fragment of Python `int(str)` exercised
by the numeric fields of the mapping API. -/
def pyIntOfString (s : String) : Option Int :=
  let t1 := s.data.dropWhile Char.isWhitespace
  let t := (t1.reverse.dropWhile Char.isWhitespace).reverse
  let (sign, digits) :=
    match t with
    | c :: rest =>
      if c == '-' then ((-1 : Int), rest)
      else if c == '+' then ((1 : Int), rest)
      else ((1 : Int), t)
    | [] => ((1 : Int), t)
  if !digits.isEmpty && digits.all Char.isDigit then
    some (sign * (digits.foldl (fun acc c => acc * 10 + ((c.toNat - 48 : Nat) : Int)) 0))
  else none

/-- Python `int(v)`: identity on integers, `True ↦ 1`/`False ↦ 0`, literal
parse on strings (`ValueError` when malformed), `TypeError` otherwise. -/
def pyInt (v : JVal) : Except String Int :=
  match v with
  | .num n => Except.ok n
  | .bool b => Except.ok (if b then 1 else 0)
  | .str s =>
    match pyIntOfString s with
    | some n => Except.ok n
    | none =>
      Except.error ("ValueError: invalid literal for int with base 10: " ++ pyQuote ++ s ++ pyQuote)
  | _ => Except.error "TypeError: int argument must be a string or a number"

/-- `True` exactly on `Except.ok` values. -/
def exOk {α β : Type} : Except α β → Bool
  | .ok _ => true
  | .error _ => false

/-- Round `num * 10 / den` to the nearest integer, ties to even — the number
of tenths displayed by Python float formatting `:.1f` applied to `num / den`
(exact rational model of the float; they agree on every quotient whose
decimal expansion stops at one decimal, which covers all claim inputs). -/
def roundHalfEvenTenths (num : Int) (den : Int) : Int :=
  if den = 0 then 0
  else
    let a := num * 10
    let d := if den < 0 then -den else den
    let a2 := if den < 0 then -a else a
    let q := Int.fdiv a2 d
    let r := a2 - q * d
    if 2 * r < d then q
    else if 2 * r > d then q + 1
    else if q % 2 = 0 then q else q + 1

/-- Python `f"{num / den:.1f}"`: the quotient formatted with exactly one
decimal digit. -/
def fmt1 (num : Int) (den : Int) : String :=
  let t := roundHalfEvenTenths num den
  if t < 0 then "-" ++ toString (t.natAbs / 10) ++ "." ++ toString (t.natAbs % 10)
  else toString (t.natAbs / 10) ++ "." ++ toString (t.natAbs % 10)

/-- Result of one client call (`geocode` / `get_walking_navigation`): the
returned value (`none` is Python `None`, the absence sentinel) and the lines
printed on the way.  Both methods wrap their body in `try/except Exception`,
so no exception component exists: every failure is absorbed. -/
structure CallOut where
  ret : Option JVal
  prints : List String

/-- Line 45 of the source, `result['geocodes'][0]['location']`: the
extraction chain run on the success branch; an `Except.error` is the
exception it raises when `geocodes` is missing, empty, or its first entry
lacks `location`. -/
def extractLocation (result : JVal) : Except String JVal :=
  match pyGetItem result "geocodes" with
  | .error e => .error e
  | .ok geocodes =>
    match pyIndex0 geocodes with
    | .error e => .error e
    | .ok first => pyGetItem first "location"

/-- The body of the `try` block of `AmapNavigation.geocode`, lines 40–50 of
the source: an `Except.error` is an exception raised inside the `try`. -/
def geocodeTryBody (address : String) (result : JVal) : Except String CallOut :=
  match pyGetItem result "status" with
  | .error e => .error e
  | .ok status =>
    if pyEqStr status "1" then
      match pyGetItem result "count" with
      | .error e => .error e
      | .ok count =>
        if !pyEqStr count "0" then
          match extractLocation result with
          | .error e => .error e
          | .ok location => .ok ⟨some location, []⟩
        else
          .ok ⟨none, ["地址转换失败: " ++ address, "错误信息: " ++ pyRepr result]⟩
    else
      .ok ⟨none, ["地址转换失败: " ++ address, "错误信息: " ++ pyRepr result]⟩

/-- `AmapNavigation.geocode`: `outcome` is the result of
`requests.get(...).json()`; every exception (transport, parse, or key/index
failure inside the `try`) lands in the `except` arm, which prints the
"地址转换异常" diagnostic and returns `None`. -/
def geocode (address : String) (outcome : Except String JVal) : CallOut :=
  match outcome with
  | .error e => ⟨none, ["地址转换异常: " ++ e]⟩
  | .ok result =>
    match geocodeTryBody address result with
    | .error e => ⟨none, ["地址转换异常: " ++ e]⟩
    | .ok out => out

/-- The body of the `try` block of `AmapNavigation.get_walking_navigation`,
lines 73–82 of the source. -/
def getWalkingTryBody (result : JVal) : Except String CallOut :=
  match pyGetItem result "status" with
  | .error e => .error e
  | .ok status =>
    if pyEqStr status "1" then
      .ok ⟨some result, []⟩
    else
      .ok ⟨none, ["获取步行导航路线失败", "错误信息: " ++ pyRepr result]⟩

/-- `AmapNavigation.get_walking_navigation`: returns the full parsed body on
`status == "1"`, otherwise prints a diagnostic and returns `None`; every
exception is absorbed by the `except` arm. -/
def get_walking_navigation (outcome : Except String JVal) : CallOut :=
  match outcome with
  | .error e => ⟨none, ["获取步行导航路线异常: " ++ e]⟩
  | .ok result =>
    match getWalkingTryBody result with
    | .error e => ⟨none, ["获取步行导航路线异常: " ++ e]⟩
    | .ok out => out

/-- Result of `AmapNavigation.display_walking_navigation`: the lines printed
(one per `print` call) and, since that method has no `try/except`, the
exception that escapes it, if any (`some e`). -/
structure DispOut where
  prints : List String
  exn : Option String
deriving DecidableEq

/-- The line printed when no navigation result is available (line 95). -/
def noRouteMsg : String := "没有可用的步行导航信息"

/-- The banner printed before the route summary (line 102). -/
def infoHeader : String := "\n=== 步行导航路线信息 ==="

/-- The banner printed before the step-by-step instructions (line 110). -/
def stepsHeader : String := "\n=== 步行导航指令 ==="

/-- Lines 119–122 of the source: `action_info` for one step — empty unless
the step has a `navi` member whose `action` entry is truthy.  An
`Except.error` is an exception raised while computing it (for example `navi`
present but not a dict). -/
def navActionInfo (s : JVal) : Except String String :=
  match pyContains s "navi" with
  | .error e => .error e
  | .ok false => .ok ""
  | .ok true =>
    match pyGetItem s "navi" with
    | .error e => .error e
    | .ok navi =>
      match pyDictGet navi "action" (.str "") with
      | .error e => .error e
      | .ok action =>
        .ok (if pyTruthy action then "动作: " ++ pyStr action else "")

/-- One iteration of the display loop (lines 112–128): the step values are
computed first (`instruction`, `road_name` with its fallback,
`step_distance`, `action_info`), then the lines are printed; an exception
during the computations therefore prints nothing for this step. -/
def renderStep (i : Nat) (s : JVal) : DispOut :=
  match pyGetItem s "instruction" with
  | .error e => ⟨[], some e⟩
  | .ok instruction =>
    match pyDictGet s "road_name" (.str "未命名道路") with
    | .error e => ⟨[], some e⟩
    | .ok roadName =>
      match pyGetItem s "step_distance" with
      | .error e => ⟨[], some e⟩
      | .ok sd =>
        match pyInt sd with
        | .error e => ⟨[], some e⟩
        | .ok stepDistance =>
          match navActionInfo s with
          | .error e => ⟨[], some e⟩
          | .ok actionInfo =>
            ⟨["\n步骤 " ++ toString i ++ ": " ++ pyStr instruction,
              "  道路名称: " ++ pyStr roadName,
              "  距离: " ++ toString stepDistance ++ " 米"] ++
             (if actionInfo.isEmpty then [] else ["  " ++ actionInfo]), none⟩

/-- The display loop `for i, step in enumerate(steps, 1)`: steps are rendered
in order with 1-based indices; the first exception stops the loop, keeping
the lines printed so far. -/
def renderSteps (i : Nat) (l : List JVal) : DispOut :=
  match l with
  | [] => ⟨[], none⟩
  | s :: rest =>
    let r := renderStep i s
    match r.exn with
    | some _ => r
    | none =>
      let r2 := renderSteps (i + 1) rest
      ⟨r.prints ++ r2.prints, r2.exn⟩

/-- Lines 106–107 of the source: the optional estimated-duration section —
no line when the first path has no `cost` member, one line otherwise. -/
def costSection (paths : JVal) : Except String (List String) :=
  match pyContains paths "cost" with
  | .error e => .error e
  | .ok false => .ok []
  | .ok true =>
    match pyGetItem paths "cost" with
    | .error e => .error e
    | .ok c =>
      match pyGetItem c "duration" with
      | .error e => .error e
      | .ok du =>
        match pyInt du with
        | .error e => .error e
        | .ok m => .ok ["预计耗时: " ++ fmt1 m 60 ++ " 分钟"]

/-- `AmapNavigation.display_walking_navigation` (lines 87–128).  The input is
Python `None` (`none`, the absence sentinel) or a value (`some v`).  The
guard is `if not nav_result or 'route' not in nav_result`; past it, the
method selects `route['paths'][0]` and prints the summary and the steps.
Every print that the source emits before an uncaught exception is kept in
`prints`. -/
def display_walking_navigation (nav : Option JVal) : DispOut :=
  match nav with
  | none => ⟨[noRouteMsg], none⟩
  | some v =>
    if !pyTruthy v then ⟨[noRouteMsg], none⟩
    else
      match pyContains v "route" with
      | .error e => ⟨[], some e⟩
      | .ok false => ⟨[noRouteMsg], none⟩
      | .ok true =>
        match pyGetItem v "route" with
        | .error e => ⟨[], some e⟩
        | .ok route =>
          match pyGetItem route "paths" with
          | .error e => ⟨[], some e⟩
          | .ok pathsList =>
            match pyIndex0 pathsList with
            | .error e => ⟨[], some e⟩
            | .ok paths =>
              match pyGetItem paths "distance" with
              | .error e => ⟨[infoHeader], some e⟩
              | .ok dv =>
                match pyInt dv with
                | .error e => ⟨[infoHeader], some e⟩
                | .ok dist =>
                  let distLine := "总距离: " ++ fmt1 dist 1000 ++ " 公里"
                  match costSection paths with
                  | .error e => ⟨[infoHeader, distLine], some e⟩
                  | .ok costLines =>
                    match pyGetItem paths "steps" with
                    | .error e =>
                      ⟨[infoHeader, distLine] ++ costLines ++ [stepsHeader], some e⟩
                    | .ok sv =>
                      match pyIterate sv with
                      | .error e =>
                        ⟨[infoHeader, distLine] ++ costLines ++ [stepsHeader], some e⟩
                      | .ok steps =>
                        let r := renderSteps 1 steps
                        ⟨[infoHeader, distLine] ++ costLines ++ [stepsHeader] ++ r.prints,
                         r.exn⟩

/-- Whether the first character of `s` is `c` (used to recognise the
estimated-duration line, the only output line beginning with `预`). -/
def startsChar (s : String) (c : Char) : Bool :=
  match s.data with
  | [] => false
  | d :: _ => d == c

/-- The field holds a value accepted by Python `int()`. -/
def fieldIntOK : Option JVal → Bool
  | some d => exOk (pyInt d)
  | none => false

/-- The optional `cost` member is absent, or is a dict whose `duration`
entry parses as an integer. -/
def costFieldOK : Option JVal → Bool
  | none => true
  | some (.obj cf) => fieldIntOK (lookupField cf "duration")
  | some _ => false

/-- Well-formedness of the `cost` member of a path. -/
def costOK (p : JVal) : Bool :=
  match p with
  | .obj pf => costFieldOK (lookupField pf "cost")
  | _ => false

/-- The optional `navi` member is absent or is a dict. -/
def naviFieldOK : Option JVal → Bool
  | none => true
  | some (.obj _) => true
  | some _ => false

/-- A step the display loop renders without an exception: a dict carrying an
`instruction`, an integer-parseable `step_distance`, and a `navi` member
that, when present, is a dict (`road_name` and `action` stay optional). -/
def stepOK (s : JVal) : Bool :=
  match s with
  | .obj fs =>
    (lookupField fs "instruction").isSome &&
    fieldIntOK (lookupField fs "step_distance") &&
    naviFieldOK (lookupField fs "navi")
  | _ => false

/-- The `steps` member is a list of well-formed steps. -/
def stepsFieldOK : Option JVal → Bool
  | some (.arr l) => l.all stepOK
  | _ => false

/-- A path the display renders without an exception: a dict with an
integer-parseable `distance`, a well-formed optional `cost`, and a `steps`
list of well-formed steps. -/
def pathOK (p : JVal) : Bool :=
  match p with
  | .obj pf =>
    fieldIntOK (lookupField pf "distance") && costOK p &&
    stepsFieldOK (lookupField pf "steps")
  | _ => false

/-- The `paths` member is a non-empty list whose first path is well-formed
(only the first path is ever rendered). -/
def pathsFieldOK : Option JVal → Bool
  | some (.arr (p :: _)) => pathOK p
  | _ => false

/-- The `route` member is absent (graceful no-route branch) or carries
well-formed paths. -/
def routeFieldOK : Option JVal → Bool
  | none => true
  | some (.obj rf) => pathsFieldOK (lookupField rf "paths")
  | some _ => false

/-- Inputs on which `display_walking_navigation` completes without an
exception: every falsy value, and every dict that either lacks `route` or
carries a well-formed route structure. -/
def displayOK (v : JVal) : Bool :=
  if !pyTruthy v then true
  else
    match v with
    | .obj fs => routeFieldOK (lookupField fs "route")
    | _ => false

/-! ## Supporting lemmas -/

theorem pyEqStr_true_iff (v : JVal) (s : String) : pyEqStr v s = true ↔ v = .str s := by
  cases v <;> simp [pyEqStr]

theorem pyContains_true_of_getItem (v : JVal) (k : String) (x : JVal)
    (h : pyGetItem v k = .ok x) : pyContains v k = Except.ok true := by
  cases v with
  | obj fs =>
    cases hl : lookupField fs k with
    | none => simp [pyGetItem, hl] at h
    | some y => simp [pyContains, hl]
  | null => simp [pyGetItem] at h
  | bool b => simp [pyGetItem] at h
  | num n => simp [pyGetItem] at h
  | str s => simp [pyGetItem] at h
  | arr l => simp [pyGetItem] at h

theorem startsChar_prefix (pre t : String) (c d : Char) (l : List Char)
    (hpre : pre.data = c :: l) : startsChar (pre ++ t) d = (c == d) := by
  simp [startsChar, String.data_append, hpre]

theorem isEmpty_prefix_false (pre t : String) (c : Char) (l : List Char)
    (hpre : pre.data = c :: l) : (pre ++ t).isEmpty = false := by
  rw [Bool.eq_false_iff]
  intro hx
  rw [String.isEmpty_iff] at hx
  have hd := congrArg String.data hx
  simp [String.data_append, hpre] at hd

theorem exOk_iff {α β : Type} (e : Except α β) : exOk e = true ↔ ∃ b, e = .ok b := by
  cases e <;> simp [exOk]

/-- No line a step ever prints begins with the character `预` heading the
estimated-duration line: step lines begin with a newline or two spaces. -/
theorem renderStep_no_dur (i : Nat) (s : JVal) :
    ∀ line ∈ (renderStep i s).prints, startsChar line '预' = false := by
  intro line hline
  cases h1 : pyGetItem s "instruction" with
  | error e => simp [renderStep, h1] at hline
  | ok ins =>
    cases h2 : pyDictGet s "road_name" (.str "未命名道路") with
    | error e => simp [renderStep, h1, h2] at hline
    | ok road =>
      cases h3 : pyGetItem s "step_distance" with
      | error e => simp [renderStep, h1, h2, h3] at hline
      | ok sd =>
        cases h4 : pyInt sd with
        | error e => simp [renderStep, h1, h2, h3, h4] at hline
        | ok n =>
          cases h5 : navActionInfo s with
          | error e => simp [renderStep, h1, h2, h3, h4, h5] at hline
          | ok ai =>
            simp [renderStep, h1, h2, h3, h4, h5] at hline
            rcases hline with h | h | h | h
            · rw [h, String.append_assoc, String.append_assoc,
                startsChar_prefix _ _ '\n' _ (['步', '骤', ' ']) rfl]
              decide
            · rw [h, startsChar_prefix _ _ ' ' _ _ rfl]
              decide
            · rw [h, String.append_assoc, startsChar_prefix _ _ ' ' _ _ rfl]
              decide
            · rcases h with ⟨hne, h⟩
              rw [h, startsChar_prefix _ _ ' ' _ _ rfl]
              decide

theorem renderSteps_no_dur (l : List JVal) :
    ∀ i, ∀ line ∈ (renderSteps i l).prints, startsChar line '预' = false := by
  induction l with
  | nil => intro i line hline; simp [renderSteps] at hline
  | cons s rest ih =>
    intro i line hline
    simp only [renderSteps] at hline
    cases hx : (renderStep i s).exn with
    | some e =>
      rw [hx] at hline
      exact renderStep_no_dur i s line hline
    | none =>
      rw [hx] at hline
      simp only [List.mem_append] at hline
      rcases hline with h | h
      · exact renderStep_no_dur i s line h
      · exact ih (i + 1) line h

theorem renderStep_exn_none (s : JVal) (h : stepOK s = true) (i : Nat) :
    (renderStep i s).exn = none := by
  cases s with
  | obj fs =>
    simp only [stepOK, Bool.and_eq_true] at h
    obtain ⟨⟨h1, h2⟩, h3⟩ := h
    obtain ⟨ins, hi⟩ := Option.isSome_iff_exists.mp h1
    cases hd : lookupField fs "step_distance" with
    | none => rw [hd] at h2; simp [fieldIntOK] at h2
    | some d =>
      rw [hd] at h2
      simp only [fieldIntOK] at h2
      obtain ⟨n, hn⟩ := (exOk_iff _).mp h2
      cases hnv : lookupField fs "navi" with
      | none =>
        simp [renderStep, pyGetItem, pyDictGet, navActionInfo, pyContains, hi, hd, hn, hnv]
      | some x =>
        rw [hnv] at h3
        cases x with
        | obj nf =>
          simp [renderStep, pyGetItem, pyDictGet, navActionInfo, pyContains, hi, hd, hn, hnv]
        | null => simp [naviFieldOK] at h3
        | bool b => simp [naviFieldOK] at h3
        | num m => simp [naviFieldOK] at h3
        | str t => simp [naviFieldOK] at h3
        | arr l => simp [naviFieldOK] at h3
  | null => simp [stepOK] at h
  | bool b => simp [stepOK] at h
  | num n => simp [stepOK] at h
  | str t => simp [stepOK] at h
  | arr l => simp [stepOK] at h

theorem renderSteps_exn_none (l : List JVal) (h : ∀ s ∈ l, stepOK s = true) (i : Nat) :
    (renderSteps i l).exn = none := by
  induction l generalizing i with
  | nil => simp [renderSteps]
  | cons s rest ih =>
    have hs := renderStep_exn_none s (h s (List.mem_cons_self s rest)) i
    simp only [renderSteps, hs]
    exact ih (fun x hx => h x (List.mem_cons_of_mem s hx)) (i + 1)

theorem costSection_ok (p : JVal) (h : costOK p = true) :
    ∃ cl, costSection p = .ok cl := by
  cases p with
  | obj pf =>
    simp only [costOK] at h
    cases hc : lookupField pf "cost" with
    | none => exact ⟨[], by simp [costSection, pyContains, hc]⟩
    | some cv =>
      rw [hc] at h
      cases cv with
      | obj cf =>
        simp only [costFieldOK] at h
        cases hd : lookupField cf "duration" with
        | none => rw [hd] at h; simp [fieldIntOK] at h
        | some du =>
          rw [hd] at h
          simp only [fieldIntOK] at h
          obtain ⟨m, hm⟩ := (exOk_iff _).mp h
          refine ⟨["预计耗时: " ++ fmt1 m 60 ++ " 分钟"], ?_⟩
          simp [costSection, pyContains, pyGetItem, hc, hd, hm]
      | null => simp [costFieldOK] at h
      | bool b => simp [costFieldOK] at h
      | num n => simp [costFieldOK] at h
      | str t => simp [costFieldOK] at h
      | arr l => simp [costFieldOK] at h
  | null => simp [costOK] at h
  | bool b => simp [costOK] at h
  | num n => simp [costOK] at h
  | str t => simp [costOK] at h
  | arr l => simp [costOK] at h

/-! ## Claim theorems -/

/-- C1: whenever the geocoding response has top-level `status = "1"` and a
`count` different from the string `"0"`, `geocode` returns exactly the
`location` value of the first entry of the `geocodes` list, verbatim — the
value is passed through untouched (no numeric parsing or re-formatting) and
nothing is printed. -/
theorem c1_geocode_returns_first_location
    (address : String) (result st ct g first loc : JVal)
    (hs : pyGetItem result "status" = .ok st) (hst : pyEqStr st "1" = true)
    (hc : pyGetItem result "count" = .ok ct) (hct : pyEqStr ct "0" = false)
    (hg : pyGetItem result "geocodes" = .ok g) (h0 : pyIndex0 g = .ok first)
    (hl : pyGetItem first "location" = .ok loc) :
    geocode address (.ok result) = ⟨some loc, []⟩ := by
  simp [geocode, geocodeTryBody, extractLocation, hs, hst, hc, hct, hg, h0, hl]

theorem c1_witness :
    geocode "北京市朝阳区阜通东大街6号"
      (.ok (.obj [("status", .str "1"), ("count", .str "1"),
        ("geocodes", .arr [.obj [("location", .str "116.483038,39.990633")]])])) =
      ⟨some (.str "116.483038,39.990633"), []⟩ :=
  c1_geocode_returns_first_location _ _ (.str "1") (.str "1") _ _ _
    rfl rfl rfl rfl rfl rfl rfl

/-- C2: when the response carries `status ≠ "1"`, or `status = "1"` with
`count = "0"`, `geocode` returns the absence sentinel `None` and prints the
failure diagnostic whose first line is the literal prefix followed by the
address (so the diagnostic contains the address); on a transport or
JSON-parse exception it returns the same sentinel with the exception
diagnostic.  `geocode` is a total function into `CallOut`, which has no
exception component: no case raises to the caller. -/
theorem c2_geocode_failure_sentinel_diagnostics :
    (∀ (address : String) (result st : JVal),
      pyGetItem result "status" = .ok st → pyEqStr st "1" = false →
      geocode address (.ok result) =
        ⟨none, ["地址转换失败: " ++ address, "错误信息: " ++ pyRepr result]⟩)
  ∧ (∀ (address : String) (result st ct : JVal),
      pyGetItem result "status" = .ok st → pyEqStr st "1" = true →
      pyGetItem result "count" = .ok ct → pyEqStr ct "0" = true →
      geocode address (.ok result) =
        ⟨none, ["地址转换失败: " ++ address, "错误信息: " ++ pyRepr result]⟩)
  ∧ (∀ (address e : String),
      geocode address (.error e) = ⟨none, ["地址转换异常: " ++ e]⟩) := by
  refine ⟨?_, ?_, ?_⟩
  · intro address result st hs hst
    simp [geocode, geocodeTryBody, hs, hst]
  · intro address result st ct hs hst hc hct
    simp [geocode, geocodeTryBody, hs, hst, hc, hct]
  · intro address e
    rfl

theorem c2_witness :
    (geocode "不存在的地址" (.ok (.obj [("status", .str "0"), ("info", .str "INVALID_PARAMS")])) =
      ⟨none, ["地址转换失败: " ++ "不存在的地址",
              "错误信息: " ++ pyRepr (.obj [("status", .str "0"), ("info", .str "INVALID_PARAMS")])]⟩)
  ∧ (geocode "空结果地址" (.ok (.obj [("status", .str "1"), ("count", .str "0")])) =
      ⟨none, ["地址转换失败: " ++ "空结果地址",
              "错误信息: " ++ pyRepr (.obj [("status", .str "1"), ("count", .str "0")])]⟩)
  ∧ (geocode "任意地址" (.error "ConnectionError") =
      ⟨none, ["地址转换异常: " ++ "ConnectionError"]⟩) :=
  ⟨c2_geocode_failure_sentinel_diagnostics.1 _ _ (.str "0") rfl rfl,
   c2_geocode_failure_sentinel_diagnostics.2.1 _ _ (.str "1") (.str "0") rfl rfl rfl rfl,
   c2_geocode_failure_sentinel_diagnostics.2.2 _ _⟩

/-- C3: `get_walking_navigation` returns the full parsed response body,
unmodified, exactly when the body has top-level `status = "1"`; in every
other case (other status value, missing status, non-dict body, or a
transport/parse exception) it returns the absence sentinel `None`, and —
the function being total into `CallOut`, which has no exception component —
nothing ever escapes it as a thrown error. -/
theorem c3_walking_route_body_iff_status_ok :
    (∀ (outcome : Except String JVal) (r : JVal),
      (get_walking_navigation outcome).ret = some r ↔
        outcome = .ok r ∧ pyGetItem r "status" = .ok (JVal.str "1"))
  ∧ (∀ e : String,
      get_walking_navigation (.error e) =
        ⟨none, ["获取步行导航路线异常: " ++ e]⟩) := by
  constructor
  · intro outcome r
    cases outcome with
    | error e => simp [get_walking_navigation]
    | ok result =>
      cases h : pyGetItem result "status" with
      | error e =>
        simp only [get_walking_navigation, getWalkingTryBody, h]
        constructor
        · intro hx; simp at hx
        · rintro ⟨he, hst⟩
          cases he
          rw [h] at hst
          cases hst
      | ok st =>
        cases hb : pyEqStr st "1" with
        | true =>
          rw [pyEqStr_true_iff] at hb
          subst hb
          simp only [get_walking_navigation, getWalkingTryBody, h]
          simp only [pyEqStr, beq_self_eq_true, if_true]
          constructor
          · intro hx
            simp at hx
            subst hx
            exact ⟨rfl, h⟩
          · rintro ⟨he, hst⟩
            cases he
            rfl
        | false =>
          simp only [get_walking_navigation, getWalkingTryBody, h, hb]
          simp only [Bool.false_eq_true, if_false]
          constructor
          · intro hx; simp at hx
          · rintro ⟨he, hst⟩
            cases he
            rw [h] at hst
            cases hst
            simp [pyEqStr] at hb
  · intro e
    rfl

theorem c3_witness :
    ((get_walking_navigation (.ok (.obj [("status", .str "1"),
        ("route", .obj [("paths", .arr [])])]))).ret =
      some (.obj [("status", .str "1"), ("route", .obj [("paths", .arr [])])]))
  ∧ (get_walking_navigation (.error "Timeout") =
      ⟨none, ["获取步行导航路线异常: " ++ "Timeout"]⟩) :=
  ⟨(c3_walking_route_body_iff_status_ok.1 _ _).mpr ⟨rfl, rfl⟩,
   c3_walking_route_body_iff_status_ok.2 _⟩

/-- C9: when the response passes the success test (`status = "1"`, `count ≠
"0"`) but the extraction `result['geocodes'][0]['location']` fails —
`geocodes` missing or empty, or the first entry lacking `location` — the
exception is caught by the same `except` arm as transport errors: `geocode`
returns the sentinel `None` and prints the same "地址转换异常" (geocoding
exception) diagnostic, rather than raising. -/
theorem c9_geocode_malformed_success_absorbed
    (address : String) (result st ct : JVal) (e : String)
    (hs : pyGetItem result "status" = .ok st) (hst : pyEqStr st "1" = true)
    (hc : pyGetItem result "count" = .ok ct) (hct : pyEqStr ct "0" = false)
    (he : extractLocation result = .error e) :
    geocode address (.ok result) = ⟨none, ["地址转换异常: " ++ e]⟩ := by
  simp [geocode, geocodeTryBody, hs, hst, hc, hct, he]

theorem c9_witness :
    geocode "地址" (.ok (.obj [("status", .str "1"), ("count", .str "2"),
        ("geocodes", .arr [])])) =
      ⟨none, ["地址转换异常: " ++ "IndexError: list index out of range"]⟩ :=
  c9_geocode_malformed_success_absorbed _ _ (.str "1") (.str "2") _
    rfl rfl rfl rfl rfl

/-- C4 counterexample: the claim says `display_walking_navigation` never
raises, even when `route.paths` is empty — but on
`{route: {paths: []}}` the source line `route['paths'][0]` raises
`IndexError`, which no handler catches: the rendered run ends in an
escaped exception. -/
theorem c4_empty_paths_counterexample :
    (display_walking_navigation (some (.obj [("route",
        .obj [("paths", .arr [])])]))).exn ≠ none := by
  decide

/-- C4 (amended): `display_walking_navigation` completes without raising on
every falsy input, on every dict lacking `route`, and on every dict whose
`route.paths` is a non-empty list whose first path is well-formed (parseable
`distance`, well-formed optional `cost`, and a `steps` list whose entries
carry an `instruction` and a parseable `step_distance`, with `navi`, when
present, a dict) — missing optional fields (`cost`, `road_name`, `action`)
only degrade the output.  The condition is sufficient, not necessary (for
example a `steps` string iterates zero times and completes); the original
universal no-raise claim is refuted by the empty-paths counterexample. -/
theorem c4_display_no_raise_when_wellformed (v : JVal) (h : displayOK v = true) :
    (display_walking_navigation (some v)).exn = none := by
  cases hb : pyTruthy v with
  | false => simp [display_walking_navigation, hb]
  | true =>
    cases v with
    | obj fs =>
      simp only [displayOK, hb, Bool.not_true, Bool.false_eq_true, if_false] at h
      cases hr : lookupField fs "route" with
      | none => simp [display_walking_navigation, hb, pyContains, hr]
      | some route =>
        rw [hr] at h
        cases route with
        | obj rf =>
          simp only [routeFieldOK] at h
          cases hp : lookupField rf "paths" with
          | none => rw [hp] at h; simp [pathsFieldOK] at h
          | some pv =>
            rw [hp] at h
            cases pv with
            | arr pl =>
              cases pl with
              | nil => simp [pathsFieldOK] at h
              | cons p rest =>
                simp only [pathsFieldOK] at h
                cases p with
                | obj pf =>
                  simp only [pathOK, Bool.and_eq_true] at h
                  obtain ⟨⟨hd1, hcost⟩, hsteps⟩ := h
                  cases hdl : lookupField pf "distance" with
                  | none => rw [hdl] at hd1; simp [fieldIntOK] at hd1
                  | some d =>
                    rw [hdl] at hd1
                    simp only [fieldIntOK] at hd1
                    obtain ⟨n, hn⟩ := (exOk_iff _).mp hd1
                    obtain ⟨cl, hcl⟩ := costSection_ok _ hcost
                    cases hsl : lookupField pf "steps" with
                    | none => rw [hsl] at hsteps; simp [stepsFieldOK] at hsteps
                    | some sv =>
                      rw [hsl] at hsteps
                      cases sv with
                      | arr l =>
                        simp only [stepsFieldOK] at hsteps
                        have hall : ∀ s ∈ l, stepOK s = true := by
                          intro s hs
                          exact List.all_eq_true.mp hsteps s hs
                        have hex := renderSteps_exn_none l hall 1
                        simp [display_walking_navigation, hb, pyContains, pyGetItem,
                          pyIndex0, pyIterate, hr, hp, hdl, hn, hcl, hsl, hex]
                      | null => simp [stepsFieldOK] at hsteps
                      | bool b => simp [stepsFieldOK] at hsteps
                      | num m => simp [stepsFieldOK] at hsteps
                      | str t => simp [stepsFieldOK] at hsteps
                      | obj g => simp [stepsFieldOK] at hsteps
                | null => simp [pathOK] at h
                | bool b => simp [pathOK] at h
                | num m => simp [pathOK] at h
                | str t => simp [pathOK] at h
                | arr l2 => simp [pathOK] at h
            | null => simp [pathsFieldOK] at h
            | bool b => simp [pathsFieldOK] at h
            | num m => simp [pathsFieldOK] at h
            | str t => simp [pathsFieldOK] at h
            | obj g => simp [pathsFieldOK] at h
        | null => simp [routeFieldOK] at h
        | bool b => simp [routeFieldOK] at h
        | num m => simp [routeFieldOK] at h
        | str t => simp [routeFieldOK] at h
        | arr l2 => simp [routeFieldOK] at h
    | null => simp [pyTruthy] at hb
    | bool b =>
      simp only [displayOK, hb, Bool.not_true, Bool.false_eq_true, if_false] at h
    | num m =>
      simp only [displayOK, hb, Bool.not_true, Bool.false_eq_true, if_false] at h
    | str t =>
      simp only [displayOK, hb, Bool.not_true, Bool.false_eq_true, if_false] at h
    | arr l2 =>
      simp only [displayOK, hb, Bool.not_true, Bool.false_eq_true, if_false] at h

theorem c4_witness :
    displayOK (.obj [("route", .obj [("paths", .arr [.obj
      [("distance", .str "1200"),
       ("steps", .arr [.obj [("instruction", .str "向东步行"),
                             ("step_distance", .str "300")]])]])])]) = true
  ∧ (display_walking_navigation (some (.obj [("route", .obj [("paths", .arr [.obj
      [("distance", .str "1200"),
       ("steps", .arr [.obj [("instruction", .str "向东步行"),
                             ("step_distance", .str "300")]])]])])]))).exn = none :=
  ⟨by decide, c4_display_no_raise_when_wellformed _ (by decide)⟩

/-- C5: on the absence sentinel `None`, and on any result dict that lacks a
`route` key, `display_walking_navigation` prints exactly the single
"没有可用的步行导航信息" (no route available) line, produces no other
output, and returns without an exception. -/
theorem c5_no_route_message_exact :
    (display_walking_navigation none = ⟨[noRouteMsg], none⟩)
  ∧ (∀ fs, lookupField fs "route" = none →
      display_walking_navigation (some (.obj fs)) = ⟨[noRouteMsg], none⟩) := by
  refine ⟨rfl, ?_⟩
  intro fs h
  cases hb : pyTruthy (JVal.obj fs) with
  | false => simp [display_walking_navigation, hb]
  | true => simp [display_walking_navigation, hb, pyContains, h]

theorem c5_witness :
    display_walking_navigation (some (.obj [("status", .str "1"),
      ("info", .str "OK")])) = ⟨[noRouteMsg], none⟩ :=
  c5_no_route_message_exact.2 _ rfl

/-- C6: on `{route: {paths: [{distance: "1000", steps: []}]}}` the renderer
prints the two section banners and a total distance of exactly "1.0" km
(1000 m / 1000, one decimal place) — no estimated-duration line (no `cost`
block) and no step blocks (`steps` is empty) — and raises nothing. -/
theorem c6_basic_route_summary_output :
    display_walking_navigation (some (.obj [("route", .obj [("paths",
        .arr [.obj [("distance", .str "1000"), ("steps", .arr [])]])])])) =
      ⟨[infoHeader, "总距离: 1.0 公里", stepsHeader], none⟩ := by
  rfl

/-- C7: the renderer prints an estimated-duration line exactly when the
first path carries a `cost` block: when `cost.duration` parses to `m`
seconds the printed line is `m / 60` minutes formatted to one decimal place
(so duration "90" prints "1.5"); and when `cost` is absent, no printed line
begins with the `预` character that heads the duration line (the banner,
distance, and step lines all begin with a newline, `总`, or a space). -/
theorem c7_duration_line_iff_cost :
    (∀ (v route pl p dv cv du : JVal) (n m : Int),
      pyTruthy v = true → pyContains v "route" = .ok true →
      pyGetItem v "route" = .ok route → pyGetItem route "paths" = .ok pl →
      pyIndex0 pl = .ok p →
      pyGetItem p "distance" = .ok dv → pyInt dv = .ok n →
      pyGetItem p "cost" = .ok cv → pyGetItem cv "duration" = .ok du →
      pyInt du = .ok m →
      ("预计耗时: " ++ fmt1 m 60 ++ " 分钟") ∈
        (display_walking_navigation (some v)).prints)
  ∧ (∀ (v route pl p dv : JVal) (n : Int),
      pyTruthy v = true → pyContains v "route" = .ok true →
      pyGetItem v "route" = .ok route → pyGetItem route "paths" = .ok pl →
      pyIndex0 pl = .ok p →
      pyGetItem p "distance" = .ok dv → pyInt dv = .ok n →
      pyContains p "cost" = .ok false →
      ∀ line ∈ (display_walking_navigation (some v)).prints,
        startsChar line '预' = false) := by
  constructor
  · intro v route pl p dv cv du n m hT hC hR hP h0 hD1 hD2 hcv hdu hm
    have hcont := pyContains_true_of_getItem p "cost" cv hcv
    have hcs : costSection p = .ok ["预计耗时: " ++ fmt1 m 60 ++ " 分钟"] := by
      simp [costSection, hcont, hcv, hdu, hm]
    cases hs1 : pyGetItem p "steps" with
    | error e =>
      simp [display_walking_navigation, hT, hC, hR, hP, h0, hD1, hD2, hcs, hs1]
    | ok sv =>
      cases hs2 : pyIterate sv with
      | error e =>
        simp [display_walking_navigation, hT, hC, hR, hP, h0, hD1, hD2, hcs, hs1, hs2]
      | ok l =>
        simp [display_walking_navigation, hT, hC, hR, hP, h0, hD1, hD2, hcs, hs1, hs2]
  · intro v route pl p dv n hT hC hR hP h0 hD1 hD2 hcf line hline
    have hcs : costSection p = .ok [] := by simp [costSection, hcf]
    have hinfo : startsChar infoHeader '预' = false := by decide
    have hsh : startsChar stepsHeader '预' = false := by decide
    have hdist : startsChar ("总距离: " ++ fmt1 n 1000 ++ " 公里") '预' = false := by
      rw [String.append_assoc, startsChar_prefix _ _ '总' _ (['距', '离', ':', ' ']) rfl]
      decide
    cases hs1 : pyGetItem p "steps" with
    | error e =>
      simp [display_walking_navigation, hT, hC, hR, hP, h0, hD1, hD2, hcs, hs1] at hline
      rcases hline with h | h | h
      · rw [h]; exact hinfo
      · rw [h]; exact hdist
      · rw [h]; exact hsh
    | ok sv =>
      cases hs2 : pyIterate sv with
      | error e =>
        simp [display_walking_navigation, hT, hC, hR, hP, h0, hD1, hD2, hcs, hs1, hs2] at hline
        rcases hline with h | h | h
        · rw [h]; exact hinfo
        · rw [h]; exact hdist
        · rw [h]; exact hsh
      | ok l =>
        simp [display_walking_navigation, hT, hC, hR, hP, h0, hD1, hD2, hcs, hs1, hs2] at hline
        rcases hline with h | h | h | h
        · rw [h]; exact hinfo
        · rw [h]; exact hdist
        · rw [h]; exact hsh
        · exact renderSteps_no_dur l 1 line h

theorem c7_witness :
    (fmt1 90 60 = "1.5")
  ∧ (("预计耗时: " ++ fmt1 90 60 ++ " 分钟") ∈
      (display_walking_navigation (some (.obj [("route", .obj [("paths", .arr [.obj
        [("distance", .str "800"), ("cost", .obj [("duration", .str "90")]),
         ("steps", .arr [])]])])]))).prints)
  ∧ startsChar infoHeader '预' = false :=
  ⟨rfl,
   c7_duration_line_iff_cost.1 _ _ _ _ _ _ (.str "90") 800 90
     rfl rfl rfl rfl rfl rfl rfl rfl rfl rfl,
   c7_duration_line_iff_cost.2
     (.obj [("route", .obj [("paths", .arr [.obj
       [("distance", .str "600"), ("steps", .arr [])]])])])
     (.obj [("paths", .arr [.obj [("distance", .str "600"), ("steps", .arr [])]])])
     (.arr [.obj [("distance", .str "600"), ("steps", .arr [])]])
     (.obj [("distance", .str "600"), ("steps", .arr [])])
     (.str "600") 600
     rfl rfl rfl rfl rfl rfl rfl rfl infoHeader (by decide)⟩

/-- C8: each step in the first path is rendered in original order, 1-indexed
(part 4: the loop emits step `i` before the remaining steps at indices
`i + 1, …`).  A step lacking `road_name` is printed with the fallback
placeholder 未命名道路 while its instruction and distance lines are still
printed (parts 1–3), and an extra 动作 (action) line appears exactly when
the step carries a `navi` dict whose `action` entry is present and non-empty
(parts 1–3: absent `navi`, absent `action`, and `action` a string `a`, where
the action line appears precisely when `a` is non-empty).  Part 5 connects
the loop to the display: the step section of the output is
`renderSteps 1 l` for the steps list `l` of the first path. -/
theorem c8_step_rendering :
    (∀ (i : Nat) (fs : List (String × JVal)) (ins dv : JVal) (n : Int),
      lookupField fs "instruction" = some ins →
      lookupField fs "road_name" = none →
      lookupField fs "step_distance" = some dv → pyInt dv = .ok n →
      lookupField fs "navi" = none →
      renderStep i (.obj fs) =
        ⟨["\n步骤 " ++ toString i ++ ": " ++ pyStr ins,
          "  道路名称: 未命名道路",
          "  距离: " ++ toString n ++ " 米"], none⟩)
  ∧ (∀ (i : Nat) (fs nf : List (String × JVal)) (ins dv : JVal) (n : Int),
      lookupField fs "instruction" = some ins →
      lookupField fs "road_name" = none →
      lookupField fs "step_distance" = some dv → pyInt dv = .ok n →
      lookupField fs "navi" = some (.obj nf) →
      lookupField nf "action" = none →
      renderStep i (.obj fs) =
        ⟨["\n步骤 " ++ toString i ++ ": " ++ pyStr ins,
          "  道路名称: 未命名道路",
          "  距离: " ++ toString n ++ " 米"], none⟩)
  ∧ (∀ (i : Nat) (fs nf : List (String × JVal)) (ins dv : JVal) (n : Int) (a : String),
      lookupField fs "instruction" = some ins →
      lookupField fs "road_name" = none →
      lookupField fs "step_distance" = some dv → pyInt dv = .ok n →
      lookupField fs "navi" = some (.obj nf) →
      lookupField nf "action" = some (.str a) →
      renderStep i (.obj fs) =
        ⟨["\n步骤 " ++ toString i ++ ": " ++ pyStr ins,
          "  道路名称: 未命名道路",
          "  距离: " ++ toString n ++ " 米"] ++
         (if a.isEmpty then [] else ["  动作: " ++ a]), none⟩)
  ∧ (∀ (i : Nat) (s : JVal) (rest : List JVal),
      (renderStep i s).exn = none →
      (renderSteps i (s :: rest)).prints =
        (renderStep i s).prints ++ (renderSteps (i + 1) rest).prints)
  ∧ (∀ (v route pl p sv dv : JVal) (n : Int) (cl : List String) (l : List JVal),
      pyTruthy v = true → pyContains v "route" = .ok true →
      pyGetItem v "route" = .ok route → pyGetItem route "paths" = .ok pl →
      pyIndex0 pl = .ok p →
      pyGetItem p "distance" = .ok dv → pyInt dv = .ok n →
      costSection p = .ok cl →
      pyGetItem p "steps" = .ok sv → pyIterate sv = .ok l →
      display_walking_navigation (some v) =
        ⟨[infoHeader, "总距离: " ++ fmt1 n 1000 ++ " 公里"] ++ cl ++ [stepsHeader] ++
          (renderSteps 1 l).prints, (renderSteps 1 l).exn⟩) := by
  refine ⟨?_, ?_, ?_, ?_, ?_⟩
  · intro i fs ins dv n h1 h2 h3 h4 h5
    simp [renderStep, pyGetItem, pyDictGet, navActionInfo, pyContains, pyStr,
      h1, h2, h3, h4, h5]
    decide
  · intro i fs nf ins dv n h1 h2 h3 h4 h5 h6
    simp [renderStep, pyGetItem, pyDictGet, navActionInfo, pyContains, pyStr,
      pyTruthy, h1, h2, h3, h4, h5, h6]
    decide
  · intro i fs nf ins dv n a h1 h2 h3 h4 h5 h6
    cases ha : a.isEmpty with
    | true =>
      have : a = "" := (String.isEmpty_iff a).mp ha
      subst this
      simp [renderStep, pyGetItem, pyDictGet, navActionInfo, pyContains, pyStr,
        pyTruthy, h1, h2, h3, h4, h5, h6]
      decide
    | false =>
      have hne : ("动作: " ++ a).isEmpty = false :=
        isEmpty_prefix_false _ _ '动' (['作', ':', ' ']) rfl
      have htr : pyTruthy (.str a) = true := by simp [pyTruthy, ha]
      have hfold : "  " ++ ("动作: " ++ a) = "  动作: " ++ a := by
        rw [← String.append_assoc]
        rfl
      simp [renderStep, pyGetItem, pyDictGet, navActionInfo, pyContains, pyStr,
        h1, h2, h3, h4, h5, h6, htr, hne, ha, hfold]
  · intro i s rest h
    simp [renderSteps, h]
  · intro v route pl p sv dv n cl l hT hC hR hP h0 hD1 hD2 hcs hs1 hs2
    simp [display_walking_navigation, hT, hC, hR, hP, h0, hD1, hD2, hcs, hs1, hs2]

theorem c8_witness :
    (renderStep 1 (.obj [("instruction", .str "沿阜通东大街向东步行"),
        ("step_distance", .str "120")]) =
      ⟨["\n步骤 " ++ toString 1 ++ ": " ++ pyStr (.str "沿阜通东大街向东步行"),
        "  道路名称: 未命名道路",
        "  距离: " ++ toString (120 : Int) ++ " 米"], none⟩)
  ∧ (renderStep 2 (.obj [("instruction", .str "右转"),
        ("step_distance", .str "30"),
        ("navi", .obj [("action", .str "向右转")])]) =
      ⟨["\n步骤 " ++ toString 2 ++ ": " ++ pyStr (.str "右转"),
        "  道路名称: 未命名道路",
        "  距离: " ++ toString (30 : Int) ++ " 米"] ++
       (if ("向右转" : String).isEmpty then [] else ["  动作: " ++ "向右转"]), none⟩) :=
  ⟨c8_step_rendering.1 1 _ _ _ 120 rfl rfl rfl rfl rfl,
   c8_step_rendering.2.2.1 2 _ _ _ _ 30 "向右转" rfl rfl rfl rfl rfl rfl⟩

/-- C10: the guard `if not nav_result or 'route' not in nav_result` treats
every falsy input — `None`, but also `False`, `0`, the empty string, the
empty list, and the empty dict — as the no-result case: the short-circuit
takes the single no-route branch, printing exactly the one message and
inspecting no field. -/
theorem c10_falsy_input_no_route_branch :
    (display_walking_navigation none = ⟨[noRouteMsg], none⟩)
  ∧ (∀ v, pyTruthy v = false →
      display_walking_navigation (some v) = ⟨[noRouteMsg], none⟩) := by
  refine ⟨rfl, ?_⟩
  intro v hv
  simp [display_walking_navigation, hv]

theorem c10_witness :
    (display_walking_navigation (some (.obj [])) = ⟨[noRouteMsg], none⟩)
  ∧ (display_walking_navigation (some (.str "")) = ⟨[noRouteMsg], none⟩)
  ∧ (display_walking_navigation (some (.arr [])) = ⟨[noRouteMsg], none⟩)
  ∧ (display_walking_navigation (some (.num 0)) = ⟨[noRouteMsg], none⟩) :=
  ⟨c10_falsy_input_no_route_branch.2 _ rfl,
   c10_falsy_input_no_route_branch.2 _ rfl,
   c10_falsy_input_no_route_branch.2 _ rfl,
   c10_falsy_input_no_route_branch.2 _ rfl⟩
